import Mathlib

/-!
Shallow embedding of the Atlas Notify server (src/server.js, plus the earlier
revision in src/unnamed/part_000) and proofs about its webhook pipeline,
membership committer, notifier and authenticated relay.

Conventions of the embedding:
- JavaScript optional string values (a field that may be undefined or null)
  become Option String; JavaScript truthiness on such values is truthyStr.
- The PostgreSQL store becomes an explicit DB value; a transaction is modelled
  by returning the untouched DB on any rolled-back path and the staged DB on
  the committed path.
- Fallible external calls (the two DB statements, the Discord fetch) are
  driven by explicit fault flags, so a theorem can quantify over every
  success/failure scenario of one request.
- Each request handler returns, besides its result, the list of externally
  visible actions it performed, in order, so that ordering and
  absence-of-side-effect claims are statements about that trace.
-/

/-- Truthiness of an optional JavaScript string: undefined/null and the empty
string are falsy, every other string is truthy. -/
def truthyStr : Option String → Bool
  | none => false
  | some s => s ≠ ""

/-- JavaScript logical-or over optional string values, as in
session.customer_details?.email or-else session.metadata?.email. -/
def jsOr (a b : Option String) : Option String :=
  if truthyStr a then a else b

/-- The fields of a Stripe checkout session object that the server reads. -/
structure Session where
  id : String
  customerDetailsEmail : Option String
  metadataEmail : Option String
  metadataPlan : Option String
  customer : Option String
deriving DecidableEq, Repr

/-- The fields of a verified Stripe event that the webhook route reads:
event.type and event.data.object. -/
structure Event where
  type : String
  obj : Session
deriving DecidableEq, Repr

/-- Source line: const email = session.customer_details?.email || session.metadata?.email. -/
def resolvedEmail (s : Session) : Option String :=
  jsOr s.customerDetailsEmail s.metadataEmail

/-- Source line: const plan = session.metadata?.plan || "drop-scout". -/
def resolvedPlan (s : Session) : String :=
  match s.metadataPlan with
  | some p => if p = "" then "drop-scout" else p
  | none => "drop-scout"

/-- A row of the users table: SERIAL id, unique email, nullable
stripe_customer_id (created_at is irrelevant to every claim and omitted). -/
structure UserRow where
  id : Nat
  email : String
  stripeCustomerId : Option String
deriving DecidableEq, Repr

/-- A row of the memberships table: SERIAL id, user_id, stripe_session_id,
plan (the timestamps are irrelevant to every claim and omitted). -/
structure MembershipRow where
  id : Nat
  userId : Nat
  stripeSessionId : String
  plan : String
deriving DecidableEq, Repr

/-- The durable store: the two tables the committer touches, plus the next
SERIAL values. The memberships table carries no uniqueness constraint on
stripe_session_id, exactly as in the migration. -/
structure DB where
  users : List UserRow
  memberships : List MembershipRow
  nextUserId : Nat
  nextMembershipId : Nat
deriving DecidableEq, Repr

def DB.empty : DB := ⟨[], [], 1, 1⟩

/-- The UPDATE arm of the upsert: set stripe_customer_id on the (unique)
conflicting row; every other row is untouched. -/
def setCustomerId (email : String) (cust : Option String) : List UserRow → List UserRow
  | [] => []
  | u :: rest =>
      if u.email = email then { u with stripeCustomerId := cust } :: rest
      else u :: setCustomerId email cust rest

/-- INSERT INTO users (email, stripe_customer_id) VALUES ($1,$2)
ON CONFLICT (email) DO UPDATE SET stripe_customer_id = EXCLUDED.stripe_customer_id
RETURNING id. Returns the updated store and the returned id. -/
def upsertUser (db : DB) (email : String) (cust : Option String) : DB × Nat :=
  match db.users.find? (fun u => u.email = email) with
  | some u => ({ db with users := setCustomerId email cust db.users }, u.id)
  | none =>
      ({ db with
          users := db.users ++ [{ id := db.nextUserId, email := email, stripeCustomerId := cust }],
          nextUserId := db.nextUserId + 1 },
       db.nextUserId)

/-- INSERT INTO memberships (user_id, stripe_session_id, plan, started_at)
VALUES ($1,$2,$3,now()). -/
def insertMembership (db : DB) (userId : Nat) (sessionId plan : String) : DB :=
  { db with
      memberships := db.memberships ++
        [{ id := db.nextMembershipId, userId := userId,
           stripeSessionId := sessionId, plan := plan }],
      nextMembershipId := db.nextMembershipId + 1 }

/-- Fault scenario for one webhook delivery: whether the user-upsert statement
fails, whether the membership-insert statement fails, and whether the
post-commit Discord call rejects. Reading back rows[0].id is part of the
upsert statement and fails with it; BEGIN and COMMIT are kept infallible. -/
structure Faults where
  upsertFails : Bool
  insertFails : Bool
  notifyFails : Bool
deriving DecidableEq, Repr

/-- Externally visible actions of the committer, in program order. -/
inductive Act where
  | beginTx : Act
  | upsert : String → Option String → Act
  | insertMem : Nat → String → String → Act
  | commit : Act
  | rollback : Act
  | notify : String → Act
  | warnSkip : String → Act
deriving DecidableEq, Repr

/-- The announcement string built after COMMIT in handleCheckoutSessionCompleted. -/
def newMemberMessage (email plan sessionId : String) : String :=
  "💸 NEW MEMBER: " ++ email ++ " purchased the " ++ plan ++ " plan. Session: " ++ sessionId

/-- handleCheckoutSessionCompleted from src/server.js. Returns the durable
store after the call, the trace of actions, and ok/error as the function
returning normally or throwing. Faithful to the source: the Discord call sits
inside the same try block as the transaction, so when it rejects after COMMIT
the catch block issues a (futile) ROLLBACK and rethrows; the committed rows
nevertheless persist, since COMMIT already ended the transaction. -/
def handleCheckoutSessionCompleted (f : Faults) (db : DB) (s : Session) :
    DB × List Act × Except Unit Unit :=
  if truthyStr (resolvedEmail s) = false then
    (db, [Act.warnSkip s.id], Except.ok ())
  else
    let email := (resolvedEmail s).getD ""
    let plan := resolvedPlan s
    if f.upsertFails then
      (db, [Act.beginTx, Act.rollback], Except.error ())
    else
      let upres := upsertUser db email s.customer
      if f.insertFails then
        (db, [Act.beginTx, Act.upsert email s.customer, Act.rollback],
         Except.error ())
      else
        let db2 := insertMembership upres.1 upres.2 s.id plan
        let msg := newMemberMessage email plan s.id
        if f.notifyFails then
          (db2,
           [Act.beginTx, Act.upsert email s.customer,
            Act.insertMem upres.2 s.id plan, Act.commit,
            Act.notify msg, Act.rollback],
           Except.error ())
        else
          (db2,
           [Act.beginTx, Act.upsert email s.customer,
            Act.insertMem upres.2 s.id plan, Act.commit,
            Act.notify msg],
           Except.ok ())

/-- Response bodies the routes produce (JSON bodies kept symbolic so no brace
ever appears in a string). -/
inductive RespBody where
  | text : String → RespBody
  | jsonOkTrue : RespBody
  | jsonErr : String → RespBody
deriving DecidableEq, Repr

structure HttpResponse where
  status : Nat
  body : RespBody
deriving DecidableEq, Repr

/-- The POST /stripe/webhook route of src/server.js. The Stripe signature
check over the raw bytes (stripe.webhooks.constructEvent) is an external
collaborator; its outcome is the verify argument: either a verification
failure with its message, or the parsed event. -/
def stripeWebhook (verify : Except String Event) (f : Faults) (db : DB) :
    DB × List Act × HttpResponse :=
  match verify with
  | Except.error m =>
      (db, [], { status := 400, body := RespBody.text ("Webhook Error: " ++ m) })
  | Except.ok ev =>
      if ev.type = "checkout.session.completed" then
        match handleCheckoutSessionCompleted f db ev.obj with
        | (db2, tr, Except.ok _) =>
            (db2, tr, { status := 200, body := RespBody.text "ok" })
        | (db2, tr, Except.error _) =>
            (db2, tr, { status := 500, body := RespBody.text "internal error" })
      else
        (db, [], { status := 200, body := RespBody.text "ignored" })

/-- One outbound HTTP call made by the notifier. -/
structure FetchCall where
  url : String
  content : String
deriving DecidableEq, Repr

/-- sendDiscordNotification: a silent no-op when DISCORD_WEBHOOK is falsy,
otherwise one fetch to it, whose rejection the fetchFails flag drives. -/
def sendDiscordNotification (webhook : Option String) (fetchFails : Bool) (content : String) :
    List FetchCall × Except Unit Unit :=
  if truthyStr webhook = false then ([], Except.ok ())
  else
    let url := webhook.getD ""
    if fetchFails then ([{ url := url, content := content }], Except.error ())
    else ([{ url := url, content := content }], Except.ok ())

/-- The fields of a /notify request the handlers read: the authorization
header and the JSON body content field. -/
structure NotifyRequest where
  authorization : Option String
  content : Option String
deriving DecidableEq, Repr

/-- Source line: const RENDER_NOTIFY_TOKEN = process.env.RENDER_NOTIFY_TOKEN || "changeme"
(identical in both revisions). The argument is the environment variable,
None when unset. -/
def resolveNotifyToken (env : Option String) : String :=
  match env with
  | some s => if s = "" then "changeme" else s
  | none => "changeme"

/-- The POST /notify route of src/server.js. There is no try/catch around the
notifier call, so a rejection escapes the handler; that escape is the
Except.error outcome, handed to the (out-of-scope) framework layer. -/
def notifyRouteMain (token : String) (webhook : Option String) (fetchFails : Bool)
    (req : NotifyRequest) : List FetchCall × Except Unit HttpResponse :=
  let auth := req.authorization.getD ""
  if auth ≠ "Bearer " ++ token then
    ([], Except.ok { status := 401, body := RespBody.text "unauthorized" })
  else
    let content := req.content.getD ""
    match sendDiscordNotification webhook fetchFails content with
    | (calls, Except.ok _) =>
        (calls, Except.ok { status := 200, body := RespBody.jsonOkTrue })
    | (calls, Except.error _) => (calls, Except.error ())

/-- The POST /notify route of src/unnamed/part_000: same gate, but the
notifier call is wrapped in try/catch and a rejection yields a 500 JSON error. -/
def notifyRouteP0 (token : String) (webhook : Option String) (fetchFails : Bool)
    (req : NotifyRequest) : List FetchCall × HttpResponse :=
  let auth := req.authorization.getD ""
  if auth ≠ "Bearer " ++ token then
    ([], { status := 401, body := RespBody.jsonErr "unauthorized" })
  else
    let content := req.content.getD ""
    match sendDiscordNotification webhook fetchFails content with
    | (calls, Except.ok _) => (calls, { status := 200, body := RespBody.jsonOkTrue })
    | (calls, Except.error _) => (calls, { status := 500, body := RespBody.jsonErr "failed" })

/-- The users rows carrying a given email. -/
def usersWithEmail (db : DB) (email : String) : List UserRow :=
  db.users.filter (fun u => u.email = email)

/-- The memberships rows carrying a given stripe_session_id. -/
def membershipsWithSession (db : DB) (sid : String) : List MembershipRow :=
  db.memberships.filter (fun m => m.stripeSessionId = sid)

/-- The unique-email invariant the users table enforces. -/
def emailsUnique (db : DB) : Prop :=
  db.users.Pairwise (fun u v => u.email ≠ v.email)

/-- Checks, scanning left to right, that every notify action is preceded by a
commit action; the flag records whether a commit has been seen. -/
def notifyOnlyAfterCommit (committed : Bool) : List Act → Bool
  | [] => true
  | Act.commit :: rest => notifyOnlyAfterCommit true rest
  | Act.notify _ :: rest => committed && notifyOnlyAfterCommit committed rest
  | _ :: rest => notifyOnlyAfterCommit committed rest

/-- A sample resolvable session shared by the concrete witnesses below. -/
def sampleSession : Session :=
  { id := "cs_test_1", customerDetailsEmail := some "a@b.com",
    metadataEmail := none, metadataPlan := some "pro", customer := some "cus_1" }

/-- A session from which no email can be resolved: customer_details.email is
the empty string and metadata carries no email. -/
def noEmailSession : Session :=
  { id := "cs_noemail", customerDetailsEmail := some "",
    metadataEmail := none, metadataPlan := none, customer := some "cus_2" }

/-- A session whose metadata.plan is present but empty. -/
def emptyPlanSession : Session :=
  { id := "cs_emptyplan", customerDetailsEmail := some "a@b.com",
    metadataEmail := none, metadataPlan := some "", customer := none }

/-- The durable store after one fault-free webhook delivery of a session. -/
def deliverOnce (db : DB) (s : Session) : DB :=
  (handleCheckoutSessionCompleted ⟨false, false, false⟩ db s).1

/-!
Helper lemmas, shared by the claim theorems below.
-/

theorem upsertUser_memberships (db : DB) (email : String) (cust : Option String) :
    (upsertUser db email cust).1.memberships = db.memberships := by
  cases h : db.users.find? (fun v => v.email = email) <;> simp [upsertUser, h]

theorem upsertUser_nextMembershipId (db : DB) (email : String) (cust : Option String) :
    (upsertUser db email cust).1.nextMembershipId = db.nextMembershipId := by
  cases h : db.users.find? (fun v => v.email = email) <;> simp [upsertUser, h]

theorem insertMembership_users (db : DB) (uid : Nat) (sid plan : String) :
    (insertMembership db uid sid plan).users = db.users := by
  simp [insertMembership]

theorem membershipsWithSession_insert (db : DB) (uid : Nat) (sid plan : String) :
    (membershipsWithSession (insertMembership db uid sid plan) sid).length =
      (membershipsWithSession db sid).length + 1 := by
  simp [membershipsWithSession, insertMembership, List.filter_append]

/-- On the fault-free path with a resolvable email, the store after the call
is the staged store of the committed transaction. -/
theorem handle_ok_db (db : DB) (s : Session)
    (hEmail : truthyStr (resolvedEmail s) = true) :
    deliverOnce db s =
      insertMembership (upsertUser db ((resolvedEmail s).getD "") s.customer).1
        (upsertUser db ((resolvedEmail s).getD "") s.customer).2 s.id (resolvedPlan s) := by
  simp [deliverOnce, handleCheckoutSessionCompleted, hEmail]

theorem setCustomerId_eq_self (email : String) (cust : Option String) (l : List UserRow)
    (h : ∀ u ∈ l, u.email = email → u.stripeCustomerId = cust) :
    setCustomerId email cust l = l := by
  induction l with
  | nil => rfl
  | cons u rest ih =>
      by_cases he : u.email = email
      · have hc := h u (by simp) he
        cases u
        simp only [setCustomerId, if_pos he]
        simp_all
      · simp only [setCustomerId, if_neg he]
        rw [ih (fun v hv hve => h v (by simp [hv]) hve)]

theorem filter_setCustomerId_length (email e : String) (cust : Option String)
    (l : List UserRow) :
    ((setCustomerId email cust l).filter (fun u => u.email = e)).length =
      (l.filter (fun u => u.email = e)).length := by
  induction l with
  | nil => rfl
  | cons u rest ih =>
      by_cases he : u.email = email
      · by_cases h2 : u.email = e
        · have h3 : email = e := he.symm.trans h2
          simp [setCustomerId, he, h2, h3, List.filter_cons]
        · have h3 : ¬ email = e := fun h => h2 (he.trans h)
          simp [setCustomerId, he, h2, h3, List.filter_cons]
      · by_cases h2 : u.email = e
        · have h3 : ¬ e = email := fun h => he (h2.trans h)
          simp [setCustomerId, he, h2, h3, List.filter_cons, ih]
        · simp [setCustomerId, he, h2, List.filter_cons, ih]

theorem setCustomerId_customer (email : String) (cust : Option String) (l : List UserRow)
    (hlen : (l.filter (fun u => u.email = email)).length ≤ 1) :
    ∀ v ∈ setCustomerId email cust l, v.email = email → v.stripeCustomerId = cust := by
  induction l with
  | nil => simp [setCustomerId]
  | cons u rest ih =>
      by_cases he : u.email = email
      · have hrest : rest.filter (fun v => v.email = email) = [] := by
          rw [List.filter_cons, if_pos (by simpa using he)] at hlen
          simp only [List.length_cons] at hlen
          exact List.eq_nil_of_length_eq_zero (by omega)
        intro v hv hve
        simp only [setCustomerId, if_pos he] at hv
        rcases List.mem_cons.mp hv with h | h
        · subst h; rfl
        · exfalso
          have : v ∈ rest.filter (fun v => v.email = email) :=
            List.mem_filter.mpr ⟨h, by simp [hve]⟩
          simp [hrest] at this
      · intro v hv hve
        simp only [setCustomerId, if_neg he] at hv
        rcases List.mem_cons.mp hv with h | h
        · exact absurd (h ▸ hve) he
        · have hlen2 : (rest.filter (fun u => u.email = email)).length ≤ 1 := by
            rw [List.filter_cons] at hlen
            simpa [he] using hlen
          exact ih hlen2 v h hve

theorem length_filter_le_one_of_pairwise (l : List UserRow) (e : String)
    (h : l.Pairwise (fun u v => u.email ≠ v.email)) :
    (l.filter (fun u => u.email = e)).length ≤ 1 := by
  induction l with
  | nil => simp
  | cons u rest ih =>
      rcases List.pairwise_cons.mp h with ⟨hu, hrest⟩
      by_cases he : u.email = e
      · have hzero : rest.filter (fun v => v.email = e) = [] := by
          rw [List.filter_eq_nil_iff]
          intro v hv
          simp
          intro hve
          exact absurd (he.trans hve.symm) (hu v hv)
        simp [List.filter_cons, he, hzero]
      · simp [List.filter_cons, he]
        exact ih hrest

/-- After an upsert into a store whose users table holds at most one row for
the email, exactly one row for the email exists and it carries the new
stripe_customer_id. -/
theorem upsertUser_email_state (db : DB) (email : String) (cust : Option String)
    (hlen : (db.users.filter (fun u => u.email = email)).length ≤ 1) :
    ((upsertUser db email cust).1.users.filter (fun u => u.email = email)).length = 1 ∧
    (∀ v ∈ (upsertUser db email cust).1.users,
        v.email = email → v.stripeCustomerId = cust) := by
  cases hf : db.users.find? (fun v => v.email = email) with
  | none =>
      have hnone : ∀ v ∈ db.users, ¬ (v.email = email) := by
        intro v hv
        have := List.find?_eq_none.mp hf v hv
        simpa using this
      have hfil : db.users.filter (fun u => u.email = email) = [] := by
        rw [List.filter_eq_nil_iff]
        intro v hv
        simpa using hnone v hv
      constructor
      · simp [upsertUser, hf, List.filter_append, hfil]
      · intro v hv hve
        simp only [upsertUser, hf] at hv
        rcases List.mem_append.mp hv with h | h
        · exact absurd hve (hnone v h)
        · simp at h
          subst h
          rfl
  | some u =>
      constructor
      · rw [upsertUser]
        simp only [hf]
        rw [filter_setCustomerId_length]
        have hmem : u ∈ db.users ∧ u.email = email := by
          have h1 := List.mem_of_find?_eq_some hf
          have h2 := List.find?_some hf
          simp at h2
          exact ⟨h1, h2⟩
        have hpos : 0 < (db.users.filter (fun v => v.email = email)).length := by
          have : u ∈ db.users.filter (fun v => v.email = email) :=
            List.mem_filter.mpr ⟨hmem.1, by simp [hmem.2]⟩
          exact List.length_pos.mpr (List.ne_nil_of_mem this)
        omega
      · intro v hv hve
        simp only [upsertUser, hf] at hv
        exact setCustomerId_customer email cust db.users hlen v hv hve

/-!
Claim theorems.
-/

/-- Claim C1 (code bug): the claim says a Notifier failure after the committed
transaction is logged and swallowed and the webhook still answers 200. In the
source the Discord call sits inside the try block of the transaction, so its
rejection is caught, a futile ROLLBACK is issued, the error is rethrown and
the webhook answers 500 — although the committed User and Membership rows do
persist. This theorem evaluates the pipeline at such a failing delivery. -/
theorem C1_notifier_failure_propagates_after_commit :
    stripeWebhook
        (Except.ok { type := "checkout.session.completed", obj := sampleSession })
        { upsertFails := false, insertFails := false, notifyFails := true }
        DB.empty =
      ({ users := [{ id := 1, email := "a@b.com", stripeCustomerId := some "cus_1" }],
         memberships := [{ id := 1, userId := 1, stripeSessionId := "cs_test_1", plan := "pro" }],
         nextUserId := 2, nextMembershipId := 2 },
       [Act.beginTx, Act.upsert "a@b.com" (some "cus_1"),
        Act.insertMem 1 "cs_test_1" "pro", Act.commit,
        Act.notify (newMemberMessage "a@b.com" "pro" "cs_test_1"), Act.rollback],
       { status := 500, body := RespBody.text "internal error" }) := by
  decide

/-- Claim C2: when the user upsert or the membership insert fails inside the
transaction, nothing persists (the store is returned untouched), the error
propagates out of the committer, and the webhook answers 500. -/
theorem C2_transaction_failure_rolls_back (f : Faults) (db : DB) (s : Session)
    (hEmail : truthyStr (resolvedEmail s) = true)
    (hf : f.upsertFails = true ∨ f.insertFails = true) :
    ∃ tr, handleCheckoutSessionCompleted f db s = (db, tr, Except.error ()) ∧
      stripeWebhook
          (Except.ok { type := "checkout.session.completed", obj := s }) f db =
        (db, tr, { status := 500, body := RespBody.text "internal error" }) := by
  obtain ⟨u, i, n⟩ := f
  cases u with
  | true =>
      refine ⟨[Act.beginTx, Act.rollback], ?_, ?_⟩ <;>
        simp [handleCheckoutSessionCompleted, stripeWebhook, hEmail]
  | false =>
      cases i with
      | true =>
          refine ⟨[Act.beginTx, Act.upsert ((resolvedEmail s).getD "") s.customer,
            Act.rollback], ?_, ?_⟩ <;>
            simp [handleCheckoutSessionCompleted, stripeWebhook, hEmail]
      | false => simp at hf

/-- Witness for C2 at a concrete delivery: resolvable email, failing upsert. -/
theorem C2_transaction_failure_rolls_back_witness :
    truthyStr (resolvedEmail sampleSession) = true ∧
    ∃ tr,
      handleCheckoutSessionCompleted ⟨true, false, false⟩ DB.empty sampleSession =
        (DB.empty, tr, Except.error ()) ∧
      stripeWebhook
          (Except.ok { type := "checkout.session.completed", obj := sampleSession })
          ⟨true, false, false⟩ DB.empty =
        (DB.empty, tr, { status := 500, body := RespBody.text "internal error" }) :=
  ⟨by decide,
   C2_transaction_failure_rolls_back ⟨true, false, false⟩ DB.empty sampleSession
     (by decide) (Or.inl rfl)⟩

/-- Claim C3: a verified checkout.session.completed event from which no email
resolves leaves the store untouched (only a warning is logged) and the webhook
answers 200. -/
theorem C3_no_email_skipped (f : Faults) (db : DB) (s : Session)
    (h : truthyStr (resolvedEmail s) = false) :
    stripeWebhook (Except.ok { type := "checkout.session.completed", obj := s }) f db =
      (db, [Act.warnSkip s.id], { status := 200, body := RespBody.text "ok" }) := by
  simp [stripeWebhook, handleCheckoutSessionCompleted, h]

/-- Witness for C3 at a concrete delivery: empty customer_details.email and no
metadata.email. -/
theorem C3_no_email_skipped_witness :
    truthyStr (resolvedEmail noEmailSession) = false ∧
    stripeWebhook
        (Except.ok { type := "checkout.session.completed", obj := noEmailSession })
        ⟨false, false, false⟩ DB.empty =
      (DB.empty, [Act.warnSkip "cs_noemail"],
       { status := 200, body := RespBody.text "ok" }) :=
  ⟨by decide,
   C3_no_email_skipped ⟨false, false, false⟩ DB.empty noEmailSession (by decide)⟩

/-- Claim C4: a webhook request whose signature verification fails is answered
400 with the diagnostic Webhook Error string, the store is untouched, and no
action of the dispatcher or the committer is performed (empty trace). -/
theorem C4_invalid_signature_rejected (m : String) (f : Faults) (db : DB) :
    stripeWebhook (Except.error m) f db =
      (db, [], { status := 400, body := RespBody.text ("Webhook Error: " ++ m) }) := by
  rfl

theorem membershipsWithSession_upsert (db : DB) (email : String) (cust : Option String)
    (sid : String) :
    membershipsWithSession (upsertUser db email cust).1 sid =
      membershipsWithSession db sid := by
  simp [membershipsWithSession, upsertUser_memberships]

/-- Claim C5: delivering the identical verified checkout-completed event twice
leaves exactly one User row for its email, the second delivery leaves the
users table unchanged (it merely rewrites the billing-customer identifier of
that row, with the same value), and the memberships table gains two rows with
the same stripe_session_id, since that column carries no uniqueness
constraint. -/
theorem C5_redelivery_duplicates_membership (db : DB) (s : Session)
    (hu : emailsUnique db) (hEmail : truthyStr (resolvedEmail s) = true) :
    (usersWithEmail (deliverOnce (deliverOnce db s) s) ((resolvedEmail s).getD "")).length = 1 ∧
    (deliverOnce (deliverOnce db s) s).users = (deliverOnce db s).users ∧
    (membershipsWithSession (deliverOnce (deliverOnce db s) s) s.id).length =
      (membershipsWithSession db s.id).length + 2 := by
  set email := (resolvedEmail s).getD "" with hE
  have hlen : (db.users.filter (fun u => u.email = email)).length ≤ 1 :=
    length_filter_le_one_of_pairwise db.users email hu
  have h1 := upsertUser_email_state db email s.customer hlen
  have hd1users : (deliverOnce db s).users = (upsertUser db email s.customer).1.users := by
    rw [handle_ok_db db s hEmail, insertMembership_users]
  have hlen1 : ((deliverOnce db s).users.filter (fun u => u.email = email)).length = 1 := by
    rw [hd1users]; exact h1.1
  have hcust1 : ∀ v ∈ (deliverOnce db s).users,
      v.email = email → v.stripeCustomerId = s.customer := by
    rw [hd1users]; exact h1.2
  have hd2users : (deliverOnce (deliverOnce db s) s).users = (deliverOnce db s).users := by
    rw [handle_ok_db (deliverOnce db s) s hEmail, insertMembership_users]
    cases hf : (deliverOnce db s).users.find? (fun u => u.email = email) with
    | none =>
        exfalso
        have hnone : ∀ v ∈ (deliverOnce db s).users, ¬ (v.email = email) := by
          intro v hv
          have := List.find?_eq_none.mp hf v hv
          simpa using this
        have : (deliverOnce db s).users.filter (fun u => u.email = email) = [] := by
          rw [List.filter_eq_nil_iff]
          intro v hv
          simpa using hnone v hv
        rw [this] at hlen1
        simp at hlen1
    | some w =>
        simp only [upsertUser, hf]
        exact setCustomerId_eq_self email s.customer _ hcust1
  refine ⟨?_, hd2users, ?_⟩
  · simp only [usersWithEmail]
    rw [hd2users]
    exact hlen1
  · have hm1 : (membershipsWithSession (deliverOnce db s) s.id).length =
        (membershipsWithSession db s.id).length + 1 := by
      rw [handle_ok_db db s hEmail, membershipsWithSession_insert,
        membershipsWithSession_upsert]
    have hm2 : (membershipsWithSession (deliverOnce (deliverOnce db s) s) s.id).length =
        (membershipsWithSession (deliverOnce db s) s.id).length + 1 := by
      rw [handle_ok_db (deliverOnce db s) s hEmail, membershipsWithSession_insert,
        membershipsWithSession_upsert]
    omega

/-- Witness for C5 at a concrete redelivery from the empty store. -/
theorem C5_redelivery_duplicates_membership_witness :
    emailsUnique DB.empty ∧
    truthyStr (resolvedEmail sampleSession) = true ∧
    (usersWithEmail (deliverOnce (deliverOnce DB.empty sampleSession) sampleSession)
        "a@b.com").length = 1 ∧
    (membershipsWithSession (deliverOnce (deliverOnce DB.empty sampleSession) sampleSession)
        "cs_test_1").length = 2 :=
  ⟨List.Pairwise.nil, by decide,
   (C5_redelivery_duplicates_membership DB.empty sampleSession
      List.Pairwise.nil (by decide)).1,
   by
     have h := (C5_redelivery_duplicates_membership DB.empty sampleSession
       List.Pairwise.nil (by decide)).2.2
     simpa using h⟩

/-- Counterexample to claim C6 as stated: in this session the metadata plan
field is present (the empty string), yet the resolved plan is the fixed
fallback, not the present value — the source falls back on any falsy plan,
not only on an absent one. -/
theorem C6_present_empty_plan_falls_back :
    emptyPlanSession.metadataPlan = some "" ∧
    resolvedPlan emptyPlanSession = "drop-scout" ∧
    resolvedPlan emptyPlanSession ≠ "" := by
  decide

/-- Claim C6 (amended: the plan label is the metadata plan field only when it
is present AND non-empty, otherwise the fixed fallback): the email is the
customer-details field when non-empty, else the metadata field; the plan is
the metadata plan field when present and non-empty, else drop-scout; and the
committed Membership row carries the session identifier and the resolved
plan. -/
theorem C6_resolution_and_membership_row (s : Session) (db : DB)
    (hEmail : truthyStr (resolvedEmail s) = true) :
    (∀ e, s.customerDetailsEmail = some e → e ≠ "" → resolvedEmail s = some e) ∧
    (truthyStr s.customerDetailsEmail = false → resolvedEmail s = s.metadataEmail) ∧
    (∀ p, s.metadataPlan = some p → p ≠ "" → resolvedPlan s = p) ∧
    ((s.metadataPlan = none ∨ s.metadataPlan = some "") → resolvedPlan s = "drop-scout") ∧
    (∃ uid, (deliverOnce db s).memberships =
        db.memberships ++
          [{ id := db.nextMembershipId, userId := uid,
             stripeSessionId := s.id, plan := resolvedPlan s }]) := by
  refine ⟨?_, ?_, ?_, ?_, ?_⟩
  · intro e he hne
    simp [resolvedEmail, jsOr, truthyStr, he, hne]
  · intro h
    simp [resolvedEmail, jsOr, h]
  · intro p hp hne
    simp [resolvedPlan, hp, hne]
  · intro h
    rcases h with h | h <;> simp [resolvedPlan, h]
  · refine ⟨(upsertUser db ((resolvedEmail s).getD "") s.customer).2, ?_⟩
    rw [handle_ok_db db s hEmail]
    simp [insertMembership, upsertUser_memberships, upsertUser_nextMembershipId]

/-- Witness for C6 (amended) at a concrete session: the plan pro is present
and non-empty and the committed membership row carries it. -/
theorem C6_resolution_and_membership_row_witness :
    truthyStr (resolvedEmail sampleSession) = true ∧
    resolvedPlan sampleSession = "pro" ∧
    ∃ uid, (deliverOnce DB.empty sampleSession).memberships =
      [{ id := 1, userId := uid, stripeSessionId := "cs_test_1", plan := "pro" }] :=
  ⟨by decide, by decide,
   (C6_resolution_and_membership_row sampleSession DB.empty (by decide)).2.2.2.2⟩

/-- Claim C7: for a delivery with a resolvable email, under every fault
scenario, a notify action occurs in the trace only after a commit action, the
message handed to the Notifier is exactly the announcement built from the
resolved email, plan, and session identifier, and a trace without a commit
holds no notify action at all. -/
theorem C7_notify_only_after_commit (f : Faults) (db : DB) (s : Session)
    (hEmail : truthyStr (resolvedEmail s) = true) :
    notifyOnlyAfterCommit false (handleCheckoutSessionCompleted f db s).2.1 = true ∧
    (Act.commit ∉ (handleCheckoutSessionCompleted f db s).2.1 →
      ∀ msg, Act.notify msg ∉ (handleCheckoutSessionCompleted f db s).2.1) ∧
    (∀ msg, Act.notify msg ∈ (handleCheckoutSessionCompleted f db s).2.1 →
      msg = newMemberMessage ((resolvedEmail s).getD "") (resolvedPlan s) s.id) := by
  obtain ⟨u, i, n⟩ := f
  cases u <;> cases i <;> cases n <;>
    simp [handleCheckoutSessionCompleted, hEmail, notifyOnlyAfterCommit]

/-- Witness for C7 at a concrete fault-free delivery. -/
theorem C7_notify_only_after_commit_witness :
    truthyStr (resolvedEmail sampleSession) = true ∧
    notifyOnlyAfterCommit false
      (handleCheckoutSessionCompleted ⟨false, false, false⟩ DB.empty sampleSession).2.1 = true :=
  ⟨by decide,
   (C7_notify_only_after_commit ⟨false, false, false⟩ DB.empty sampleSession (by decide)).1⟩

/-- Claim C8: a /notify request whose Authorization header is not exactly the
bearer form of the configured token is answered 401 with no side effects — no
outbound chat call — in both revisions of the route. -/
theorem C8_notify_unauthorized (token : String) (webhook : Option String) (ff : Bool)
    (req : NotifyRequest)
    (h : req.authorization.getD "" ≠ "Bearer " ++ token) :
    notifyRouteMain token webhook ff req =
      ([], Except.ok { status := 401, body := RespBody.text "unauthorized" }) ∧
    notifyRouteP0 token webhook ff req =
      ([], { status := 401, body := RespBody.jsonErr "unauthorized" }) := by
  constructor <;> simp [notifyRouteMain, notifyRouteP0, h]

/-- Witness for C8 at a concrete request without an Authorization header. -/
theorem C8_notify_unauthorized_witness :
    (({ authorization := none, content := some "x" } : NotifyRequest).authorization.getD ""
        ≠ "Bearer " ++ "changeme") ∧
    notifyRouteMain "changeme" (some "https://discord.example/hook") false
        { authorization := none, content := some "x" } =
      ([], Except.ok { status := 401, body := RespBody.text "unauthorized" }) :=
  ⟨by decide,
   (C8_notify_unauthorized "changeme" (some "https://discord.example/hook") false
      { authorization := none, content := some "x" } (by decide)).1⟩

/-- Counterexample to claim C9 as stated: at this concrete authorized request
with a failing chat call, the src/server.js revision of /notify does not
answer 500 — its handler has no try/catch, so the rejection escapes the
handler (the Except.error outcome) and the handler itself sends no response
at all; the claimed 500 holds only in the part_000 revision. -/
theorem C9_server_failure_escapes_without_500 :
    (notifyRouteMain "t" (some "https://discord.example/hook") true
        { authorization := some "Bearer t", content := some "hello" }).2 =
      Except.error () ∧
    (notifyRouteP0 "t" (some "https://discord.example/hook") true
        { authorization := some "Bearer t", content := some "hello" }).2 =
      { status := 500, body := RespBody.jsonErr "failed" } :=
  ⟨rfl, rfl⟩

/-- Claim C9 (amended: the failure outcome is a handler-level 500 only in the
part_000 revision; in src/server.js the rejection escapes the uncaught async
handler to the framework layer): a /notify request with the matching bearer
token forwards the body content to the Notifier (the outbound calls of the
route are exactly those of sendDiscordNotification on that content) and
reports its outcome: on success both revisions answer ok:true; on failure the
part_000 revision answers 500, while in server.js the rejection escapes the
handler to the framework layer. -/
theorem C9_notify_authorized_reports_outcome (token : String) (webhook : Option String)
    (ff : Bool) (req : NotifyRequest)
    (h : req.authorization.getD "" = "Bearer " ++ token) :
    (notifyRouteP0 token webhook ff req).1 =
        (sendDiscordNotification webhook ff (req.content.getD "")).1 ∧
    (notifyRouteMain token webhook ff req).1 =
        (sendDiscordNotification webhook ff (req.content.getD "")).1 ∧
    ((sendDiscordNotification webhook ff (req.content.getD "")).2 = Except.ok () →
      (notifyRouteP0 token webhook ff req).2 =
          { status := 200, body := RespBody.jsonOkTrue } ∧
      (notifyRouteMain token webhook ff req).2 =
          Except.ok { status := 200, body := RespBody.jsonOkTrue }) ∧
    ((sendDiscordNotification webhook ff (req.content.getD "")).2 = Except.error () →
      (notifyRouteP0 token webhook ff req).2 =
          { status := 500, body := RespBody.jsonErr "failed" } ∧
      (notifyRouteMain token webhook ff req).2 = Except.error ()) := by
  have hne : ¬ (req.authorization.getD "" ≠ "Bearer " ++ token) := by simp [h]
  rcases hsd : sendDiscordNotification webhook ff (req.content.getD "") with ⟨calls, r⟩
  cases r <;> simp [notifyRouteMain, notifyRouteP0, hne, hsd]

/-- Witness for C9 at a concrete authorized request with a failing chat call. -/
theorem C9_notify_authorized_reports_outcome_witness :
    (({ authorization := some "Bearer t", content := some "hello" } : NotifyRequest).authorization.getD ""
        = "Bearer " ++ "t") ∧
    (notifyRouteP0 "t" (some "https://discord.example/hook") true
        { authorization := some "Bearer t", content := some "hello" }).1 =
      (sendDiscordNotification (some "https://discord.example/hook") true "hello").1 :=
  ⟨by decide,
   (C9_notify_authorized_reports_outcome "t" (some "https://discord.example/hook") true
      { authorization := some "Bearer t", content := some "hello" } (by decide)).1⟩

/-- Claim C10: with the relay token environment variable unset, the expected
token silently resolves to changeme, and a request carrying Authorization
Bearer changeme is accepted by both revisions of /notify and triggers the
outbound notification; nothing in the code rejects this configuration at
startup. -/
theorem C10_default_token_accepted (url content : String) (hurl : url ≠ "") :
    resolveNotifyToken none = "changeme" ∧
    notifyRouteMain (resolveNotifyToken none) (some url) false
        { authorization := some "Bearer changeme", content := some content } =
      ([{ url := url, content := content }],
       Except.ok { status := 200, body := RespBody.jsonOkTrue }) ∧
    notifyRouteP0 (resolveNotifyToken none) (some url) false
        { authorization := some "Bearer changeme", content := some content } =
      ([{ url := url, content := content }],
       { status := 200, body := RespBody.jsonOkTrue }) := by
  have heq : ("Bearer changeme" : String) = "Bearer " ++ resolveNotifyToken none := by
    decide
  refine ⟨rfl, ?_, ?_⟩ <;>
    simp [notifyRouteMain, notifyRouteP0, heq, sendDiscordNotification,
      truthyStr, hurl]

/-- Witness for C10 at a concrete destination and message. -/
theorem C10_default_token_accepted_witness :
    ("https://discord.example/hook" : String) ≠ "" ∧
    notifyRouteMain (resolveNotifyToken none) (some "https://discord.example/hook") false
        { authorization := some "Bearer changeme", content := some "ping" } =
      ([{ url := "https://discord.example/hook", content := "ping" }],
       Except.ok { status := 200, body := RespBody.jsonOkTrue }) :=
  ⟨by decide,
   (C10_default_token_accepted "https://discord.example/hook" "ping" (by decide)).2.1⟩
